import Mathlib

/-!
Verification of the dynamic library-loading / retry state machine, the model
cache with in-flight request tracking, and the WebLLM engine session manager
of the `huggingface-transformers-react` provider (`src/index.tsx`).

The TypeScript source is shallowly embedded: React `useState` cells and
`useRef` cells become fields of explicit state records, and each handler of
the provider becomes a state-transformer function.  Asynchronous control flow
(the single-threaded event loop) is modelled by splitting every `async`
function at its `await` points into atomic steps; an interleaving of calls is
a sequential composition of those steps, which is exactly the set of
behaviours of the browser event loop.  Nondeterministic environment inputs
(`Math.random()` jitter, `Date.now()`, the outcome of a runtime factory call,
presence of capabilities on the injected global namespace) are passed as
explicit parameters.

One point of modelling care: the retry timer installed by
`handleLibraryFailure` via `setTimeout(tryLoadLibrary, delay)` holds the
*mount-render closure* of `tryLoadLibrary`.  That closure captured the React
state values `isLibraryLoaded = false` and `libraryStatus = "idle"` (the
state at the render whose effect started the first attempt; every subsequent
script/poll/timer closure is created by that same render's function family,
so the captured values never change along the retry chain).  The guard
`if (isLibraryLoaded || libraryStatus === "loading") return;` therefore reads
that stale snapshot, not the current status.  `tryLoadLibrary` below takes
the captured snapshot as explicit arguments, and `fireRetry` instantiates it
with the mount-render values `(false, idle)`.
-/

/-- Status enum used for both the library load and per-model state
(`ModelStatus` in `src/index.tsx`). -/
inductive ModelStatus where
  | idle
  | loading
  | ready
  | error
deriving DecidableEq, BEq, Repr

/-- State of the one-shot deferred `readyPromise` (resolve/reject capture the
first transition only, matching JS promise semantics). -/
inductive ReadyState where
  | pending
  | resolved
  | rejected (e : String)
deriving DecidableEq, BEq, Repr

/-- `BACKOFF_CAP` constant from `src/index.tsx` (max 60 s delay). -/
def BACKOFF_CAP : Nat := 60000

/-- Deterministic part of the retry delay for (post-increment) attempt `k`:
`Math.min(1000 * 2 ** (attempt - 1), BACKOFF_CAP)`. -/
def backoffBase (k : Nat) : Nat := min (1000 * 2 ^ (k - 1)) BACKOFF_CAP

/-- Full retry delay: deterministic part plus the jitter `Math.random() * 1000`
(a real in `[0, 1000)`, modelled as a rational parameter). -/
def backoffDelay (k : Nat) (jitter : ℚ) : ℚ := (backoffBase k : ℚ) + jitter

/-- Provider configuration relevant to the load state machines
(`loadTimeout`, `maxRetries` props; defaults 60000 and 3). -/
structure LibConfig where
  loadTimeout : Nat
  maxRetries : Nat
deriving DecidableEq, Repr

/-- State of the transformers-library load state machine: the React state
cells (`libraryStatus`, `isLibraryLoaded`, `libraryError`) and the refs
(`libraryAttemptRef`, `scriptRef` presence, `isPollingRef`, the poll
deadline, the one-shot ready promise).  `libraryErrorCallbacks` logs
invocations of the caller-supplied `onLibraryError`; `retryScheduled` records
a pending `setTimeout(tryLoadLibrary, delay)`. -/
structure LibState where
  libraryStatus : ModelStatus
  isLibraryLoaded : Bool
  libraryError : Option String
  attempt : Nat
  scriptPresent : Bool
  polling : Bool
  pollDeadline : Nat
  ready : ReadyState
  libraryErrorCallbacks : List String
  retryScheduled : Bool
deriving DecidableEq, Repr

/-- `clearPolling`: cancel the poll timer and clear `isPollingRef`. -/
def clearPolling (s : LibState) : LibState := { s with polling := false }

/-- `removeScriptTag`: remove the injected script element. -/
def removeScriptTag (s : LibState) : LibState := { s with scriptPresent := false }

/-- `readyResolveRef.current?.()`: resolve the one-shot ready promise
(a no-op once settled). -/
def resolveReadySignal (s : LibState) : LibState :=
  match s.ready with
  | .pending => { s with ready := .resolved }
  | _ => s

/-- `readyRejectRef.current?.(err)`: reject the one-shot ready promise
(a no-op once settled). -/
def rejectReadySignal (e : String) (s : LibState) : LibState :=
  match s.ready with
  | .pending => { s with ready := .rejected e }
  | _ => s

/-- `injectScriptTag`: insert the module script once
(`if (scriptRef.current) return;`). -/
def injectScriptTag (s : LibState) : LibState :=
  if s.scriptPresent then s else { s with scriptPresent := true }

/-- `ensurePolling(deadline)`: start the poll loop if not already running. -/
def ensurePolling (deadline : Nat) (s : LibState) : LibState :=
  if s.polling then s else { s with polling := true, pollDeadline := deadline }

/-- Error message of the readiness-timeout failure
(`transformers.js not ready within ${loadTimeout} ms`). -/
def timeoutMsg (loadTimeout : Nat) : String :=
  "transformers.js not ready within " ++ toString loadTimeout ++ " ms"

/-- `handleLibraryFailure(err)`: clear polling, bump the attempt counter; if
the bumped counter is still below `maxRetries`, schedule a retry after the
backoff delay (returned as `some delay`); otherwise record the error, flip
status to `error`, reject the ready promise and invoke `onLibraryError`. -/
def handleLibraryFailure (cfg : LibConfig) (err : String) (jitter : ℚ)
    (s : LibState) : LibState × Option ℚ :=
  let s1 := clearPolling s
  let s2 := { s1 with attempt := s1.attempt + 1 }
  if s2.attempt < cfg.maxRetries then
    ({ s2 with retryScheduled := true }, some (backoffDelay s2.attempt jitter))
  else
    let s3 := { s2 with libraryError := some err, libraryStatus := .error }
    let s4 := rejectReadySignal err s3
    ({ s4 with libraryErrorCallbacks := s4.libraryErrorCallbacks ++ [err] }, none)

/-- Shared shape of both failure entry points: the script `onerror` handler
and the poll-deadline branch both run `clearPolling(); removeScriptTag();`
before `handleLibraryFailure`. -/
def libraryFailureEvent (cfg : LibConfig) (err : String) (jitter : ℚ)
    (s : LibState) : LibState × Option ℚ :=
  handleLibraryFailure cfg err jitter (removeScriptTag (clearPolling s))

/-- The script element's `onerror` handler (`new Error("Script load error")`). -/
def scriptErrorEvent (cfg : LibConfig) (jitter : ℚ) (s : LibState) :
    LibState × Option ℚ :=
  handleLibraryFailure cfg "Script load error" jitter
    (removeScriptTag (clearPolling s))

/-- One firing of the poll loop's `tick` at time `now`, with `entryPresent`
the truthiness of `window.transformers?.pipeline`.  Only applicable while the
poll timer is alive (`clearPolling` cancels the pending timer). -/
def pollTick (cfg : LibConfig) (entryPresent : Bool) (now : Nat) (jitter : ℚ)
    (s : LibState) : LibState × Option ℚ :=
  if s.polling = false then (s, none)
  else if entryPresent then
    let s1 := removeScriptTag (clearPolling s)
    (resolveReadySignal { s1 with isLibraryLoaded := true, libraryStatus := .ready }, none)
  else if s.pollDeadline ≤ now then
    handleLibraryFailure cfg (timeoutMsg cfg.loadTimeout) jitter
      (removeScriptTag (clearPolling s))
  else
    (s, none)

/-- `tryLoadLibrary` with its captured render snapshot made explicit: the
guard reads the `isLibraryLoaded` / `libraryStatus` values the invoking
closure captured, then sets status to loading, clears the error, injects the
script (insert-once) and (re)starts polling with deadline
`Date.now() + loadTimeout`. -/
def tryLoadLibrary (cfg : LibConfig) (capturedIsLoaded : Bool)
    (capturedStatus : ModelStatus) (now : Nat) (s : LibState) : LibState :=
  if capturedIsLoaded = true ∨ capturedStatus = ModelStatus.loading then s
  else
    let s1 := { s with libraryStatus := .loading, libraryError := none }
    let s2 := injectScriptTag s1
    ensurePolling (now + cfg.loadTimeout) s2

/-- The scheduled retry timer firing at time `now`: it invokes the
mount-render closure of `tryLoadLibrary`, whose captured snapshot is
`isLibraryLoaded = false`, `libraryStatus = "idle"` (see module comment). -/
def fireRetry (cfg : LibConfig) (now : Nat) (s : LibState) : LibState :=
  tryLoadLibrary cfg false .idle now { s with retryScheduled := false }

/-- State of the WebLLM library load state machine (second instance of the
same pattern: `webLLMStatus`, `webLLMError`, `webLLMAttemptRef`, script/poll
refs and the one-shot `webLLMReadyPromise`). -/
structure WebLLMLoadState where
  webLLMStatus : ModelStatus
  webLLMError : Option String
  attempt : Nat
  scriptPresent : Bool
  polling : Bool
  pollDeadline : Nat
  ready : ReadyState
  retryScheduled : Bool
deriving DecidableEq, Repr

/-- `handleWebLLMFailure(err)`: identical retry/backoff shape to
`handleLibraryFailure`, over the WebLLM machine (no caller error callback at
this layer). -/
def handleWebLLMFailure (cfg : LibConfig) (err : String) (jitter : ℚ)
    (s : WebLLMLoadState) : WebLLMLoadState × Option ℚ :=
  let s1 := { s with polling := false }
  let s2 := { s1 with attempt := s1.attempt + 1 }
  if s2.attempt < cfg.maxRetries then
    ({ s2 with retryScheduled := true }, some (backoffDelay s2.attempt jitter))
  else
    let s3 := { s2 with webLLMError := some err, webLLMStatus := .error }
    let s4 := match s3.ready with
      | .pending => { s3 with ready := .rejected err }
      | _ => s3
    (s4, none)

/- ──────────────── Model cache / loader (`loadModel`, `unloadModel`) ──────────────── -/

/-- Association-list lookup (JS object property read; keys are unique). -/
def lookupA {α : Type} (k : String) : List (String × α) → Option α
  | [] => none
  | (k', v) :: t => if k' = k then some v else lookupA k t

/-- Association-list insert/replace (JS object property write). -/
def insertA {α : Type} (k : String) (v : α) : List (String × α) → List (String × α)
  | [] => [(k, v)]
  | (k', v') :: t => if k' = k then (k, v) :: t else (k', v') :: insertA k v t

/-- Association-list delete (JS `delete obj[k]`). -/
def eraseA {α : Type} (k : String) : List (String × α) → List (String × α)
  | [] => []
  | (k', v') :: t => if k' = k then eraseA k t else (k', v') :: eraseA k t

/-- Shared state of the model cache: the React state cells `models`,
`modelStatus`, `modelErrors`, the ref `pendingRef` (model id → id of the
in-flight `pipeline` promise), and the resolution state of the library's
ready promise.  `factoryCalls` logs every `pipeline(task, modelId)`
invocation in order; `disposeCalls` logs every `handle.dispose()`;
`modelErrorCallbacks` logs every `onModelError(modelId, err)`.  Handles and
promises are identified by naturals (pipeline handle objects are always
truthy, so `models[id]` presence is exactly `lookupA` success). -/
structure CacheState where
  models : List (String × Nat)
  modelStatus : List (String × ModelStatus)
  modelErrors : List (String × Option String)
  pending : List (String × Nat)
  ready : Bool
  factoryCalls : List (String × String)
  disposeCalls : List Nat
  modelErrorCallbacks : List (String × String)
deriving DecidableEq, Repr

/-- Empty provider cache state before the ready promise resolves. -/
def cacheInit : CacheState :=
  { models := [], modelStatus := [], modelErrors := [], pending := [],
    ready := false, factoryCalls := [], disposeCalls := [],
    modelErrorCallbacks := [] }

/-- The library ready promise resolving (enables `stepReady` continuations). -/
def resolveCacheReady (s : CacheState) : CacheState := { s with ready := true }

deriving instance DecidableEq for Except

/-- Progress of one `loadModel(modelId, task, retry)` call through its
`await` points.  `joined p` is a call that returned the in-flight promise `p`
from `pendingRef`; `done r` is a settled call. -/
inductive CallPhase where
  | awaitingReady (modelId task : String) (remain : Nat)
  | awaitingFactory (modelId task : String) (remain : Nat) (p : Nat)
  | joined (p : Nat)
  | done (r : Except String Nat)
deriving DecidableEq, Repr

/-- The synchronous prologue of `loadModel` (everything before the first
`await`): cache-hit check on `models`, dedup check on `pendingRef`, then the
optimistic status/error writes; the call then suspends at
`await readyPromiseRef.current`. -/
def stepStart (modelId task : String) (remain : Nat) (s : CacheState) :
    CallPhase × CacheState :=
  match lookupA modelId s.models with
  | some h => (.done (.ok h), s)
  | none =>
    match lookupA modelId s.pending with
    | some p => (.joined p, s)
    | none =>
      (.awaitingReady modelId task remain,
       { s with modelStatus := insertA modelId .loading s.modelStatus,
                modelErrors := insertA modelId none s.modelErrors })

/-- The factory invocation inside `attempt`: `pipeline(task, modelId)` is
called and its promise is registered in `pendingRef` — only now, after the
ready `await`.  The fresh promise id is the length of the factory log. -/
def recordFactoryCall (modelId task : String) (s : CacheState) : CacheState :=
  { s with factoryCalls := s.factoryCalls ++ [(task, modelId)],
           pending := insertA modelId s.factoryCalls.length s.pending }

/-- State updates of the success path of `attempt`: store the handle in
`models`, set status ready, remove the pending entry. -/
def successUpdate (modelId : String) (h : Nat) (s : CacheState) : CacheState :=
  { s with models := insertA modelId h s.models,
           modelStatus := insertA modelId .ready s.modelStatus,
           pending := eraseA modelId s.pending }

/-- State updates of the retries-exhausted path of `attempt`: record the
error, set status error, remove the pending entry, invoke `onModelError`. -/
def failureUpdate (modelId : String) (e : String) (s : CacheState) : CacheState :=
  { s with modelErrors := insertA modelId (some e) s.modelErrors,
           modelStatus := insertA modelId .error s.modelStatus,
           pending := eraseA modelId s.pending,
           modelErrorCallbacks := s.modelErrorCallbacks ++ [(modelId, e)] }

/-- Continuation of a call after `await readyPromiseRef.current`: invokes
the factory and registers the pending promise.  Only applicable once the
ready promise has resolved (`s.ready = true`); schedules respecting that are
exactly the event-loop behaviours. -/
def stepReady (modelId task : String) (remain : Nat) (s : CacheState) :
    CallPhase × CacheState :=
  (.awaitingFactory modelId task remain s.factoryCalls.length,
   recordFactoryCall modelId task s)

/-- Continuation of a call after its factory promise resolves with handle
`h`. -/
def stepFactorySuccess (modelId : String) (h : Nat) (s : CacheState) :
    CallPhase × CacheState :=
  (.done (.ok h), successUpdate modelId h s)

/-- Continuation of a call after its factory promise rejects with `e`: retry
(`return attempt(remain - 1)`, which re-suspends at the ready `await`) while
budget remains, else the terminal failure path. -/
def stepFactoryFailure (modelId task : String) (remain : Nat) (e : String)
    (s : CacheState) : CallPhase × CacheState :=
  match remain with
  | r + 1 => (.awaitingReady modelId task r, s)
  | 0 => (.done (.error e), failureUpdate modelId e s)

/-- `unloadModel(modelId)`: drop any pending entry (without cancelling the
in-flight call), dispose the cached handle if it exposes a `dispose`
function (dispose failures are swallowed, so they do not affect state), and
delete the entry from all three tables.  `hasDispose` models
`typeof pipe?.dispose === "function"`. -/
def unloadModel (hasDispose : Nat → Bool) (modelId : String) (s : CacheState) :
    CacheState :=
  let s1 := { s with pending := eraseA modelId s.pending }
  let s2 :=
    match lookupA modelId s1.models with
    | some h =>
      { s1 with
        disposeCalls := if hasDispose h then s1.disposeCalls ++ [h] else s1.disposeCalls,
        models := eraseA modelId s1.models }
    | none => s1
  { s2 with modelStatus := eraseA modelId s2.modelStatus,
            modelErrors := eraseA modelId s2.modelErrors }

/-- A single `loadModel` call's `attempt` recursion run to completion with no
interleaving, after the ready promise has resolved: `outcomes` supplies the
settlement of each successive factory promise.  Each attempt performs
`recordFactoryCall` (the `pipeline` invocation plus pending registration) and
then branches on the outcome exactly as `stepFactorySuccess` /
`stepFactoryFailure` do.  The `[]` case is unreachable when `outcomes` covers
`remain + 1` attempts. -/
def runAttempt (modelId task : String) (outcomes : List (Except String Nat))
    (remain : Nat) (s : CacheState) : CacheState × Except String Nat :=
  match outcomes with
  | [] => (s, .error "")
  | o :: rest =>
    let s1 := recordFactoryCall modelId task s
    match o with
    | .ok h => (successUpdate modelId h s1, .ok h)
    | .error e =>
      match remain with
      | r + 1 => runAttempt modelId task rest r s1
      | 0 => (failureUpdate modelId e s1, .error e)

/- ──────────────── Engine session manager (`loadWebLLMModel` etc.) ──────────────── -/

/-- Observable instants of a `loadWebLLMModel` call: beginning/completion of
the previous engine's `unload()` await, and invocation/settlement of the
`CreateMLCEngine` factory.  Engine instances are identified by naturals. -/
inductive SessionEvent where
  | unloadStart (e : Nat)
  | unloadDone (e : Nat)
  | createStart (modelId : String)
  | createDone (e : Nat)
  | createFail
deriving DecidableEq, Repr

/-- The multiset of live engine sessions after a prefix of events: a session
becomes live when its creation resolves (`createDone`) and stops being live
when its `unload()` completes (`unloadDone`). -/
def liveSessions (initial : List Nat) (events : List SessionEvent) : List Nat :=
  events.foldl
    (fun live ev =>
      match ev with
      | .unloadDone e => live.erase e
      | .createDone e => live ++ [e]
      | _ => live)
    initial

/-- State owned by the engine session manager: the singleton engine ref, the
WebLLM status/error/progress cells, the current model id, the `enableWebLLM`
flag, and whether `window.webllm?.CreateMLCEngine` is present. -/
structure EngineState where
  engine : Option Nat
  currentModel : Option String
  webLLMStatus : ModelStatus
  webLLMError : Option String
  isWebLLMLoaded : Bool
  enableWebLLM : Bool
  createPresent : Bool
deriving DecidableEq, Repr

/-- `loadWebLLMModel(modelId)`: fail fast if the feature is disabled or the
library global is absent; otherwise set status loading, await `unload()` of
any existing engine (clearing the ref before the factory runs), then invoke
`CreateMLCEngine(modelId, …)`.  `outcome` is the factory settlement (the new
engine instance, or a rejection).  Returns the final state, the ordered trace
of observable events, and the call result. -/
def loadWebLLMModel (s : EngineState) (modelId : String)
    (outcome : Except String Nat) :
    EngineState × List SessionEvent × Except String Unit :=
  if s.enableWebLLM = false then
    (s, [], .error "WebLLM is not enabled. Set enableWebLLM=\x7btrue\x7d in TransformersProvider")
  else if s.createPresent = false then
    (s, [], .error "WebLLM library not loaded yet")
  else
    let s1 : EngineState := { s with webLLMStatus := .loading, webLLMError := none }
    let pre : EngineState × List SessionEvent :=
      match s1.engine with
      | some e => ({ s1 with engine := none }, [.unloadStart e, .unloadDone e])
      | none => (s1, [])
    match outcome with
    | .ok e1 =>
      ({ pre.1 with engine := some e1, isWebLLMLoaded := true,
                    webLLMStatus := .ready, currentModel := some modelId },
       pre.2 ++ [.createStart modelId, .createDone e1], .ok ())
    | .error msg =>
      ({ pre.1 with webLLMError := some msg, webLLMStatus := .error },
       pre.2 ++ [.createStart modelId, .createFail], .error msg)

/-- A WebLLM model-catalog record (only identity matters here). -/
structure WebLLMModelRecord where
  model_id : String
deriving DecidableEq, Repr

/-- The runtime's `prebuiltAppConfig` capability: reading `model_list` either
yields the catalog or throws (the surrounding `try`/`catch`). -/
structure PrebuiltAppConfig where
  modelListRead : Except String (List WebLLMModelRecord)

/-- `getAvailableWebLLMModels()`: throws when the feature is disabled, throws
when `window.webllm?.prebuiltAppConfig` is absent, and only falls back to the
empty list when reading `model_list` itself throws. -/
def getAvailableWebLLMModels (enableWebLLM : Bool)
    (config : Option PrebuiltAppConfig) :
    Except String (List WebLLMModelRecord) :=
  if enableWebLLM = false then .error "WebLLM is not enabled"
  else
    match config with
    | none => .error "WebLLM library not loaded yet"
    | some cfg =>
      match cfg.modelListRead with
      | .ok l => .ok l
      | .error _ => .ok []

/-- `hasModelInCache(modelId)`: resolves `false` when the feature is
disabled, when `window.webllm?.hasModelInCache` is absent, or when the probe
throws; otherwise relays the probe's answer. -/
def hasModelInCache (enableWebLLM : Bool)
    (checkCache : Option (String → Except String Bool)) (modelId : String) :
    Except String Bool :=
  if enableWebLLM = false then .ok false
  else
    match checkCache with
    | none => .ok false
    | some f =>
      match f modelId with
      | .ok b => .ok b
      | .error _ => .ok false

/- ──────────────── Chat completion requests and streaming ──────────────── -/

/-- A chat message (`{role, content}`). -/
structure ChatMessage where
  role : String
  content : String
deriving DecidableEq, Repr

/-- Values that can appear as fields of a completion request object. -/
inductive ReqValue where
  | vBool (b : Bool)
  | vMsgs (ms : List ChatMessage)
  | vStr (s : String)
  | vNum (n : ℚ)
deriving DecidableEq, Repr

/-- The request object `{ messages, ...options }` built by `chatCompletion`:
an object literal whose spread of `options` comes last, so a key present in
`options` overrides the fixed field.  Objects are modelled extensionally as
key-to-value partial functions. -/
def chatCompletionRequest (messages : List ChatMessage)
    (options : String → Option ReqValue) : String → Option ReqValue :=
  fun k =>
    match options k with
    | some v => some v
    | none => if k = "messages" then some (.vMsgs messages) else none

/-- The request object `{ messages, stream: true, ...options }` built by
`streamChatCompletion`. -/
def streamChatCompletionRequest (messages : List ChatMessage)
    (options : String → Option ReqValue) : String → Option ReqValue :=
  fun k =>
    match options k with
    | some v => some v
    | none =>
      if k = "messages" then some (.vMsgs messages)
      else if k = "stream" then some (.vBool true)
      else none

/-- `{delta: {content}}` of a streamed chunk's choice; either field may be
absent. -/
structure StreamDelta where
  content : Option String
deriving DecidableEq, Repr

/-- One choice of a streamed chunk. -/
structure StreamChoice where
  delta : Option StreamDelta
deriving DecidableEq, Repr

/-- One chunk of a streamed completion (`{choices: [...]}`). -/
structure StreamChunk where
  choices : List StreamChoice
deriving DecidableEq, Repr

/-- `chunk.choices[0]?.delta?.content || ""`: optional chaining collapses any
missing link to `""`, and an empty content string also falls through `||` to
`""`. -/
def extractChunkContent (c : StreamChunk) : String :=
  match c.choices.head? with
  | none => ""
  | some ch =>
    match ch.delta with
    | none => ""
    | some d => d.content.getD ""

/-- The `for await` loop of `streamChatCompletion`: the ordered list of
arguments passed to `onChunk` — one call per chunk whose extracted content is
non-empty (`if (content) onChunk(content)`), in emission order; the call
resolves when the list is exhausted. -/
def streamOnChunkCalls (chunks : List StreamChunk) : List String :=
  match chunks with
  | [] => []
  | c :: rest =>
    let content := extractChunkContent c
    if content = "" then streamOnChunkCalls rest
    else content :: streamOnChunkCalls rest

/- ──────────────── Theorems ──────────────── -/

theorem backoffBase_succ_double (k : Nat) (hk : 1 ≤ k) :
    backoffBase (k + 1) = min (2 * backoffBase k) BACKOFF_CAP := by
  unfold backoffBase BACKOFF_CAP
  have h1 : k + 1 - 1 = k := by omega
  have h2 : 1000 * 2 ^ k = 2 * (1000 * 2 ^ (k - 1)) := by
    have hp : 2 ^ k = 2 * 2 ^ (k - 1) := by
      conv_lhs => rw [show k = (k - 1) + 1 by omega]
      rw [pow_succ]; ring
    rw [hp]; ring
  rw [h1, h2]
  omega

theorem backoffBase_le_cap (k : Nat) : backoffBase k ≤ 60000 := by
  unfold backoffBase BACKOFF_CAP
  omega

/-- C8: for every retry attempt `k` (with `1 ≤ k < maxRetries`) of either
library load state machine, the scheduled backoff delay equals
`min(1000 * 2^(k-1), 60000) + jitter` with jitter in `[0, 1000)`; the
deterministic part doubles with each attempt, capped at 60000 ms, and the
total delay is strictly below 61000 ms.  (`k` is the controller's attempt
counter during failure handling, i.e. the value after the increment at the
top of `handleLibraryFailure` / `handleWebLLMFailure`, which is the value
the `attempts < maxRetries` guard inspects.) -/
theorem backoff_formula (cfg : LibConfig) (k : Nat) (jitter : ℚ)
    (errA errB : String) (sL : LibState) (sW : WebLLMLoadState)
    (hk : 1 ≤ k) (hkmax : k < cfg.maxRetries)
    (hj0 : 0 ≤ jitter) (hj1 : jitter < 1000)
    (hA : sL.attempt + 1 = k) (hB : sW.attempt + 1 = k) :
    (handleLibraryFailure cfg errA jitter sL).2
        = some (((min (1000 * 2 ^ (k - 1)) 60000 : Nat) : ℚ) + jitter)
    ∧ (handleWebLLMFailure cfg errB jitter sW).2
        = some (((min (1000 * 2 ^ (k - 1)) 60000 : Nat) : ℚ) + jitter)
    ∧ backoffBase (k + 1) = min (2 * backoffBase k) BACKOFF_CAP
    ∧ backoffDelay k jitter < 61000 := by
  have hcondA : sL.attempt + 1 < cfg.maxRetries := by omega
  have hcondB : sW.attempt + 1 < cfg.maxRetries := by omega
  refine ⟨?_, ?_, backoffBase_succ_double k hk, ?_⟩
  · simp [handleLibraryFailure, clearPolling, hcondA, hkmax, backoffDelay,
      backoffBase, BACKOFF_CAP, hA]
  · simp [handleWebLLMFailure, hcondB, hkmax, backoffDelay, backoffBase,
      BACKOFF_CAP, hB]
  · have hle : backoffBase k ≤ 60000 := backoffBase_le_cap k
    have hle' : ((backoffBase k : Nat) : ℚ) ≤ 60000 := by exact_mod_cast hle
    unfold backoffDelay
    linarith

/-- C8 witness: attempt `k = 2` with jitter `1/2` under the default
configuration schedules `min(1000·2, 60000) + 1/2 = 2000.5` ms. -/
theorem backoff_formula_witness :
    (handleLibraryFailure ⟨60000, 3⟩ "Script load error" (1/2)
        { libraryStatus := .loading, isLibraryLoaded := false,
          libraryError := none, attempt := 1, scriptPresent := false,
          polling := false, pollDeadline := 0, ready := .pending,
          libraryErrorCallbacks := [], retryScheduled := false }).2
      = some (((min (1000 * 2 ^ (2 - 1)) 60000 : Nat) : ℚ) + (1/2))
    ∧ (handleWebLLMFailure ⟨60000, 3⟩ "WebLLM script load error" (1/2)
        { webLLMStatus := .loading, webLLMError := none, attempt := 1,
          scriptPresent := false, polling := false, pollDeadline := 0,
          ready := .pending, retryScheduled := false }).2
      = some (((min (1000 * 2 ^ (2 - 1)) 60000 : Nat) : ℚ) + (1/2))
    ∧ backoffBase (2 + 1) = min (2 * backoffBase 2) BACKOFF_CAP
    ∧ backoffDelay 2 (1/2) < 61000 :=
  backoff_formula ⟨60000, 3⟩ 2 (1/2) "Script load error"
    "WebLLM script load error"
    { libraryStatus := .loading, isLibraryLoaded := false, libraryError := none,
      attempt := 1, scriptPresent := false, polling := false, pollDeadline := 0,
      ready := .pending, libraryErrorCallbacks := [], retryScheduled := false }
    { webLLMStatus := .loading, webLLMError := none, attempt := 1,
      scriptPresent := false, polling := false, pollDeadline := 0,
      ready := .pending, retryScheduled := false }
    (by decide) (by decide) (by norm_num) (by norm_num) rfl rfl

/-- C1: for every library-load failure (script execution error or poll
deadline) handled while the attempt counter is below `maxRetries` (the
`attempts < maxRetries` guard over the freshly incremented counter), the
externally-observed status stays `loading` and the ready promise stays
untouched, a retry is scheduled with the backoff delay, and when the timer
fires — through the mount-render closure of `tryLoadLibrary`, whose captured
guard snapshot is `(false, idle)` — a new script element is injected and a
fresh poll loop is started with the fresh deadline `now' + loadTimeout`,
status still `loading`.  Both failure kinds funnel through the same event
(first two conjuncts). -/
theorem library_retry_reinjects (cfg : LibConfig) (err : String) (jitter : ℚ)
    (now now' : Nat) (s : LibState)
    (hstatus : s.libraryStatus = ModelStatus.loading)
    (hattempt : s.attempt + 1 < cfg.maxRetries)
    (hpoll : s.polling = true)
    (hdeadline : s.pollDeadline ≤ now) :
    pollTick cfg false now jitter s
        = libraryFailureEvent cfg (timeoutMsg cfg.loadTimeout) jitter s
    ∧ scriptErrorEvent cfg jitter s
        = libraryFailureEvent cfg "Script load error" jitter s
    ∧ (libraryFailureEvent cfg err jitter s).1.libraryStatus = ModelStatus.loading
    ∧ (libraryFailureEvent cfg err jitter s).1.ready = s.ready
    ∧ (libraryFailureEvent cfg err jitter s).1.libraryError = s.libraryError
    ∧ (libraryFailureEvent cfg err jitter s).1.retryScheduled = true
    ∧ (libraryFailureEvent cfg err jitter s).2
        = some (backoffDelay (s.attempt + 1) jitter)
    ∧ (fireRetry cfg now' (libraryFailureEvent cfg err jitter s).1).libraryStatus
        = ModelStatus.loading
    ∧ (fireRetry cfg now' (libraryFailureEvent cfg err jitter s).1).scriptPresent
        = true
    ∧ (fireRetry cfg now' (libraryFailureEvent cfg err jitter s).1).polling = true
    ∧ (fireRetry cfg now' (libraryFailureEvent cfg err jitter s).1).pollDeadline
        = now' + cfg.loadTimeout
    ∧ (fireRetry cfg now' (libraryFailureEvent cfg err jitter s).1).ready
        = s.ready := by
  refine ⟨?_, rfl, ?_, ?_, ?_, ?_, ?_, ?_, ?_, ?_, ?_, ?_⟩
  · simp [pollTick, hpoll, hdeadline, libraryFailureEvent]
  all_goals
    simp [libraryFailureEvent, handleLibraryFailure, clearPolling,
      removeScriptTag, hattempt, hstatus, fireRetry, tryLoadLibrary,
      injectScriptTag, ensurePolling, beq_iff_eq]

/-- C1 witness: a concrete first-attempt failure under the default
configuration is retried, re-injecting the script and restarting the poll
loop with a fresh deadline while the status stays `loading`. -/
theorem library_retry_reinjects_witness :
    pollTick ⟨60000, 3⟩ false 100 0
        { libraryStatus := .loading, isLibraryLoaded := false,
          libraryError := none, attempt := 0, scriptPresent := true,
          polling := true, pollDeadline := 100, ready := .pending,
          libraryErrorCallbacks := [], retryScheduled := false }
        = libraryFailureEvent ⟨60000, 3⟩
            (timeoutMsg (LibConfig.mk 60000 3).loadTimeout) 0
            { libraryStatus := .loading, isLibraryLoaded := false,
              libraryError := none, attempt := 0, scriptPresent := true,
              polling := true, pollDeadline := 100, ready := .pending,
              libraryErrorCallbacks := [], retryScheduled := false }
    ∧ scriptErrorEvent ⟨60000, 3⟩ 0
        { libraryStatus := .loading, isLibraryLoaded := false,
          libraryError := none, attempt := 0, scriptPresent := true,
          polling := true, pollDeadline := 100, ready := .pending,
          libraryErrorCallbacks := [], retryScheduled := false }
        = libraryFailureEvent ⟨60000, 3⟩ "Script load error" 0
            { libraryStatus := .loading, isLibraryLoaded := false,
              libraryError := none, attempt := 0, scriptPresent := true,
              polling := true, pollDeadline := 100, ready := .pending,
              libraryErrorCallbacks := [], retryScheduled := false }
    ∧ (libraryFailureEvent ⟨60000, 3⟩ "Script load error" 0
        { libraryStatus := .loading, isLibraryLoaded := false,
          libraryError := none, attempt := 0, scriptPresent := true,
          polling := true, pollDeadline := 100, ready := .pending,
          libraryErrorCallbacks := [], retryScheduled := false }).1.libraryStatus
        = ModelStatus.loading
    ∧ (libraryFailureEvent ⟨60000, 3⟩ "Script load error" 0
        { libraryStatus := .loading, isLibraryLoaded := false,
          libraryError := none, attempt := 0, scriptPresent := true,
          polling := true, pollDeadline := 100, ready := .pending,
          libraryErrorCallbacks := [], retryScheduled := false }).1.ready
        = ({ libraryStatus := .loading, isLibraryLoaded := false,
             libraryError := none, attempt := 0, scriptPresent := true,
             polling := true, pollDeadline := 100, ready := .pending,
             libraryErrorCallbacks := [], retryScheduled := false } : LibState).ready
    ∧ (libraryFailureEvent ⟨60000, 3⟩ "Script load error" 0
        { libraryStatus := .loading, isLibraryLoaded := false,
          libraryError := none, attempt := 0, scriptPresent := true,
          polling := true, pollDeadline := 100, ready := .pending,
          libraryErrorCallbacks := [], retryScheduled := false }).1.libraryError
        = ({ libraryStatus := .loading, isLibraryLoaded := false,
             libraryError := none, attempt := 0, scriptPresent := true,
             polling := true, pollDeadline := 100, ready := .pending,
             libraryErrorCallbacks := [], retryScheduled := false } : LibState).libraryError
    ∧ (libraryFailureEvent ⟨60000, 3⟩ "Script load error" 0
        { libraryStatus := .loading, isLibraryLoaded := false,
          libraryError := none, attempt := 0, scriptPresent := true,
          polling := true, pollDeadline := 100, ready := .pending,
          libraryErrorCallbacks := [], retryScheduled := false }).1.retryScheduled
        = true
    ∧ (libraryFailureEvent ⟨60000, 3⟩ "Script load error" 0
        { libraryStatus := .loading, isLibraryLoaded := false,
          libraryError := none, attempt := 0, scriptPresent := true,
          polling := true, pollDeadline := 100, ready := .pending,
          libraryErrorCallbacks := [], retryScheduled := false }).2
        = some (backoffDelay (0 + 1) 0)
    ∧ (fireRetry ⟨60000, 3⟩ 200 (libraryFailureEvent ⟨60000, 3⟩
        "Script load error" 0
        { libraryStatus := .loading, isLibraryLoaded := false,
          libraryError := none, attempt := 0, scriptPresent := true,
          polling := true, pollDeadline := 100, ready := .pending,
          libraryErrorCallbacks := [], retryScheduled := false }).1).libraryStatus
        = ModelStatus.loading
    ∧ (fireRetry ⟨60000, 3⟩ 200 (libraryFailureEvent ⟨60000, 3⟩
        "Script load error" 0
        { libraryStatus := .loading, isLibraryLoaded := false,
          libraryError := none, attempt := 0, scriptPresent := true,
          polling := true, pollDeadline := 100, ready := .pending,
          libraryErrorCallbacks := [], retryScheduled := false }).1).scriptPresent
        = true
    ∧ (fireRetry ⟨60000, 3⟩ 200 (libraryFailureEvent ⟨60000, 3⟩
        "Script load error" 0
        { libraryStatus := .loading, isLibraryLoaded := false,
          libraryError := none, attempt := 0, scriptPresent := true,
          polling := true, pollDeadline := 100, ready := .pending,
          libraryErrorCallbacks := [], retryScheduled := false }).1).polling = true
    ∧ (fireRetry ⟨60000, 3⟩ 200 (libraryFailureEvent ⟨60000, 3⟩
        "Script load error" 0
        { libraryStatus := .loading, isLibraryLoaded := false,
          libraryError := none, attempt := 0, scriptPresent := true,
          polling := true, pollDeadline := 100, ready := .pending,
          libraryErrorCallbacks := [], retryScheduled := false }).1).pollDeadline
        = 200 + (LibConfig.mk 60000 3).loadTimeout
    ∧ (fireRetry ⟨60000, 3⟩ 200 (libraryFailureEvent ⟨60000, 3⟩
        "Script load error" 0
        { libraryStatus := .loading, isLibraryLoaded := false,
          libraryError := none, attempt := 0, scriptPresent := true,
          polling := true, pollDeadline := 100, ready := .pending,
          libraryErrorCallbacks := [], retryScheduled := false }).1).ready
        = ({ libraryStatus := .loading, isLibraryLoaded := false,
             libraryError := none, attempt := 0, scriptPresent := true,
             polling := true, pollDeadline := 100, ready := .pending,
             libraryErrorCallbacks := [], retryScheduled := false } : LibState).ready :=
  library_retry_reinjects ⟨60000, 3⟩ "Script load error" 0 100 200
    { libraryStatus := .loading, isLibraryLoaded := false, libraryError := none,
      attempt := 0, scriptPresent := true, polling := true, pollDeadline := 100,
      ready := .pending, libraryErrorCallbacks := [], retryScheduled := false }
    rfl (by decide) rfl (by decide)

theorem lookupA_insertA_self {α : Type} (k : String) (v : α)
    (l : List (String × α)) : lookupA k (insertA k v l) = some v := by
  induction l with
  | nil => simp [insertA, lookupA]
  | cons hd t ih =>
    obtain ⟨k', v'⟩ := hd
    by_cases h : k' = k
    · simp [insertA, h, lookupA]
    · simp [insertA, h, lookupA, ih]

theorem lookupA_eraseA_self {α : Type} (k : String)
    (l : List (String × α)) : lookupA k (eraseA k l) = none := by
  induction l with
  | nil => simp [eraseA, lookupA]
  | cons hd t ih =>
    obtain ⟨k', v'⟩ := hd
    by_cases h : k' = k
    · simp [eraseA, h, ih]
    · simp [eraseA, h, lookupA, ih]

/-- Schedule refuting strict dedup: two `loadModel("m", "t")` calls run their
synchronous prologues in the same event-loop turn — both before either call's
ready-await continuation, hence before either registers a pending entry
(`pendingRef.current[modelId] = p` only executes after
`await readyPromiseRef.current`).  Then the ready promise resolves and both
continuations run. -/
def dedupRaceStart1 : CallPhase × CacheState := stepStart "m" "t" 1 cacheInit

/-- Second call's prologue, still before any pending registration. -/
def dedupRaceStart2 : CallPhase × CacheState :=
  stepStart "m" "t" 1 dedupRaceStart1.2

/-- The library ready promise resolves after both prologues. -/
def dedupRaceReady : CacheState := resolveCacheReady dedupRaceStart2.2

/-- First call's continuation: first `pipeline("t", "m")` invocation. -/
def dedupRaceCont1 : CallPhase × CacheState := stepReady "m" "t" 1 dedupRaceReady

/-- Second call's continuation: second `pipeline("t", "m")` invocation. -/
def dedupRaceCont2 : CallPhase × CacheState :=
  stepReady "m" "t" 1 dedupRaceCont1.2

/-- C2 counterexample: in the above legal schedule both calls pass the
`models`/`pendingRef` checks (first two conjuncts: neither joins an existing
promise), both arrive before the ReadySignal resolves (third conjunct), and
the factory is invoked twice for the same identifier — refuting "the factory
is invoked exactly once for id" for `N = 2` concurrent calls. -/
theorem loadModel_dedup_counterexample :
    dedupRaceStart1.1 = CallPhase.awaitingReady "m" "t" 1
    ∧ dedupRaceStart2.1 = CallPhase.awaitingReady "m" "t" 1
    ∧ dedupRaceStart2.2.ready = false
    ∧ dedupRaceCont2.2.factoryCalls = [("t", "m"), ("t", "m")]
    ∧ dedupRaceCont2.2.factoryCalls.length ≠ 1 := by decide

/-- C2 (amended): deduplication holds exactly from pending-entry
registration onwards — a `loadModel(id, task)` call whose synchronous
prologue runs while a pending promise `p` for `id` is registered performs no
factory invocation and no state mutation, and returns the registered
in-flight promise `p` (so it settles with that shared promise's outcome).
Calls whose prologues all run before the first call's ready-await
continuation registers the entry (as in the counterexample schedule) each
invoke the factory themselves. -/
theorem loadModel_dedup_amended (modelId task : String) (remain p : Nat)
    (s : CacheState)
    (hm : lookupA modelId s.models = none)
    (hp : lookupA modelId s.pending = some p) :
    stepStart modelId task remain s = (CallPhase.joined p, s) := by
  simp [stepStart, hm, hp]

/-- C2 amended witness: a third call arriving while promise `0` for `"m"` is
registered joins it without touching the state. -/
theorem loadModel_dedup_amended_witness :
    stepStart "m" "t" 1
        { cacheInit with ready := true, pending := [("m", 0)],
                         factoryCalls := [("t", "m")] }
      = (CallPhase.joined 0,
         { cacheInit with ready := true, pending := [("m", 0)],
                          factoryCalls := [("t", "m")] }) :=
  loadModel_dedup_amended "m" "t" 1 0
    { cacheInit with ready := true, pending := [("m", 0)],
                     factoryCalls := [("t", "m")] }
    (by decide) (by decide)

/-- Schedule for the unload-during-in-flight scenario: one
`loadModel("m", "t")` call suspends, the ready promise resolves, its
continuation invokes the factory (registering pending promise `0`), then
`unloadModel("m")` runs while that factory call is still in flight, and
finally the factory resolves with handle `7`. -/
def unloadRaceStart : CallPhase × CacheState := stepStart "m" "t" 1 cacheInit

/-- Ready promise resolution. -/
def unloadRaceReady : CacheState := resolveCacheReady unloadRaceStart.2

/-- The call's continuation: `pipeline("t", "m")` invoked, pending entry
registered. -/
def unloadRaceCont : CallPhase × CacheState := stepReady "m" "t" 1 unloadRaceReady

/-- `unloadModel("m")` while the factory call is in flight (every handle is
taken to expose `dispose`, the strongest setting for the claim). -/
def unloadRaceUnloaded : CacheState :=
  unloadModel (fun _ => true) "m" unloadRaceCont.2

/-- The in-flight factory promise resolves with handle `7` after the unload. -/
def unloadRaceResolved : CallPhase × CacheState :=
  stepFactorySuccess "m" 7 unloadRaceUnloaded

/-- C3 counterexample: after `unloadModel("m")` removed the pending entry
(first conjunct) while the models table had no entry (second conjunct), the
later resolution of the in-flight factory call *stores* the handle into the
models table (third conjunct) — refuting "it is never stored into ModelTable"
— and its disposal routine is indeed never invoked (fourth conjunct). -/
theorem unload_inflight_counterexample :
    lookupA "m" unloadRaceUnloaded.pending = none
    ∧ lookupA "m" unloadRaceUnloaded.models = none
    ∧ lookupA "m" unloadRaceResolved.2.models = some 7
    ∧ unloadRaceResolved.2.disposeCalls = [] := by decide

/-- C3 (amended): `unloadModel(id)` during an in-flight factory call only
stops tracking the pending promise; when that call later resolves, its
success continuation still runs unconditionally, so the handle is *stored*
into the models table (re-creating the entry, status `ready`) rather than
discarded; the handle's disposal routine is not invoked at resolution time
(no dispose call is added anywhere in the schedule). -/
theorem unload_inflight_amended (modelId : String) (h : Nat)
    (hasD : Nat → Bool) (s : CacheState)
    (hm : lookupA modelId s.models = none) :
    lookupA modelId (unloadModel hasD modelId s).pending = none
    ∧ (unloadModel hasD modelId s).disposeCalls = s.disposeCalls
    ∧ lookupA modelId
        (stepFactorySuccess modelId h (unloadModel hasD modelId s)).2.models
        = some h
    ∧ lookupA modelId
        (stepFactorySuccess modelId h (unloadModel hasD modelId s)).2.modelStatus
        = some ModelStatus.ready
    ∧ (stepFactorySuccess modelId h (unloadModel hasD modelId s)).2.disposeCalls
        = s.disposeCalls := by
  refine ⟨?_, ?_, ?_, ?_, ?_⟩ <;>
    simp [unloadModel, hm, stepFactorySuccess, successUpdate,
      lookupA_eraseA_self, lookupA_insertA_self]

/-- C3 amended witness: the concrete unload-during-in-flight schedule with
handle `7`. -/
theorem unload_inflight_amended_witness :
    lookupA "m" (unloadModel (fun _ => true) "m" unloadRaceCont.2).pending = none
    ∧ (unloadModel (fun _ => true) "m" unloadRaceCont.2).disposeCalls
        = unloadRaceCont.2.disposeCalls
    ∧ lookupA "m"
        (stepFactorySuccess "m" 7 (unloadModel (fun _ => true) "m" unloadRaceCont.2)).2.models
        = some 7
    ∧ lookupA "m"
        (stepFactorySuccess "m" 7 (unloadModel (fun _ => true) "m" unloadRaceCont.2)).2.modelStatus
        = some ModelStatus.ready
    ∧ (stepFactorySuccess "m" 7 (unloadModel (fun _ => true) "m" unloadRaceCont.2)).2.disposeCalls
        = unloadRaceCont.2.disposeCalls :=
  unload_inflight_amended "m" 7 (fun _ => true) unloadRaceCont.2 (by decide)

/-- C5: a `loadModel(id, task, retryCount)` call all of whose factory
attempts fail (`errs` lists the rejection of each of the `retryCount + 1`
attempts, `e` being the last one) records the last error in the model-error
table, sets the model status to `error`, removes the pending entry, appends
exactly one `onModelError(id, e)` invocation, and rejects with `e`; `id`
remains absent from the models table, so a later `loadModel(id)` call's
prologue takes the fresh-load branch (suspending on the ready promise again)
rather than a cache hit or join. -/
theorem loadModel_retries_exhausted (modelId task : String)
    (errs : List String) (e : String) (remain : Nat) (s : CacheState)
    (hlen : errs.length = remain + 1)
    (hlast : errs.getLast? = some e)
    (hm : lookupA modelId s.models = none) :
    (runAttempt modelId task (errs.map Except.error) remain s).2
        = Except.error e
    ∧ lookupA modelId
        (runAttempt modelId task (errs.map Except.error) remain s).1.modelErrors
        = some (some e)
    ∧ lookupA modelId
        (runAttempt modelId task (errs.map Except.error) remain s).1.modelStatus
        = some ModelStatus.error
    ∧ lookupA modelId
        (runAttempt modelId task (errs.map Except.error) remain s).1.pending
        = none
    ∧ (runAttempt modelId task (errs.map Except.error) remain s).1.modelErrorCallbacks
        = s.modelErrorCallbacks ++ [(modelId, e)]
    ∧ lookupA modelId
        (runAttempt modelId task (errs.map Except.error) remain s).1.models
        = none
    ∧ ∀ remain2 task2,
        (stepStart modelId task2 remain2
            (runAttempt modelId task (errs.map Except.error) remain s).1).1
          = CallPhase.awaitingReady modelId task2 remain2 := by
  induction remain generalizing errs s with
  | zero =>
    match errs, hlen with
    | [e'], _ =>
      simp [List.getLast?] at hlast
      subst hlast
      have hfinal :
          runAttempt modelId task ([e'].map Except.error) 0 s
            = (failureUpdate modelId e' (recordFactoryCall modelId task s),
               Except.error e') := by
        simp [runAttempt]
      rw [hfinal]
      refine ⟨rfl, ?_, ?_, ?_, ?_, ?_, ?_⟩
      · simp [failureUpdate, lookupA_insertA_self]
      · simp [failureUpdate, recordFactoryCall, lookupA_insertA_self]
      · simp [failureUpdate, lookupA_eraseA_self]
      · simp [failureUpdate, recordFactoryCall]
      · simp [failureUpdate, recordFactoryCall, hm]
      · intro remain2 task2
        simp [stepStart, failureUpdate, recordFactoryCall, hm,
          lookupA_eraseA_self]
  | succ r ih =>
    match errs, hlen with
    | a :: t, hlen2 =>
      have ht : t.length = r + 1 := by
        simpa using hlen2
      have htne : t ≠ [] := by
        intro h0
        rw [h0] at ht
        simp at ht
      have hlast' : t.getLast? = some e := by
        cases t with
        | nil => exact absurd rfl htne
        | cons b t2 => rw [← List.getLast?_cons_cons (a := a)]; exact hlast
      have hstep :
          runAttempt modelId task ((a :: t).map Except.error) (r + 1) s
            = runAttempt modelId task (t.map Except.error) r
                (recordFactoryCall modelId task s) := by
        simp [runAttempt]
      have hm' : lookupA modelId (recordFactoryCall modelId task s).models
          = none := by
        simpa [recordFactoryCall] using hm
      have := ih t (recordFactoryCall modelId task s) ht hlast' hm'
      rw [hstep]
      refine ⟨this.1, this.2.1, this.2.2.1, this.2.2.2.1, ?_,
        this.2.2.2.2.2.1, this.2.2.2.2.2.2⟩
      have hc := this.2.2.2.2.1
      simpa [recordFactoryCall] using hc

/-- C5 witness: a call with retry budget `1` whose two attempts reject with
`"boom1"` then `"boom2"` ends with the error recorded, status `error`, no
pending entry, one error callback, a rejected result, and a fresh-load
prologue afterwards. -/
theorem loadModel_retries_exhausted_witness :
    (runAttempt "m" "t" (["boom1", "boom2"].map Except.error) 1
        (resolveCacheReady cacheInit)).2 = Except.error "boom2"
    ∧ lookupA "m"
        (runAttempt "m" "t" (["boom1", "boom2"].map Except.error) 1
          (resolveCacheReady cacheInit)).1.modelErrors = some (some "boom2")
    ∧ lookupA "m"
        (runAttempt "m" "t" (["boom1", "boom2"].map Except.error) 1
          (resolveCacheReady cacheInit)).1.modelStatus
        = some ModelStatus.error
    ∧ lookupA "m"
        (runAttempt "m" "t" (["boom1", "boom2"].map Except.error) 1
          (resolveCacheReady cacheInit)).1.pending = none
    ∧ (runAttempt "m" "t" (["boom1", "boom2"].map Except.error) 1
        (resolveCacheReady cacheInit)).1.modelErrorCallbacks
        = (resolveCacheReady cacheInit).modelErrorCallbacks ++ [("m", "boom2")]
    ∧ lookupA "m"
        (runAttempt "m" "t" (["boom1", "boom2"].map Except.error) 1
          (resolveCacheReady cacheInit)).1.models = none
    ∧ ∀ remain2 task2,
        (stepStart "m" task2 remain2
            (runAttempt "m" "t" (["boom1", "boom2"].map Except.error) 1
              (resolveCacheReady cacheInit)).1).1
          = CallPhase.awaitingReady "m" task2 remain2 :=
  loadModel_retries_exhausted "m" "t" ["boom1", "boom2"] "boom2" 1
    (resolveCacheReady cacheInit) (by decide) (by decide) (by decide)

/-- C6: loading WebLLM model `B` while a session `e0` for a different model
`A` is active produces exactly the event order "await `A`'s unload to
completion, then invoke the factory for `B`" (first conjunct: `unloadDone e0`
strictly precedes `createStart B` in the trace); at most one live session
exists after every prefix of the trace (second conjunct); and on success the
session reference and current model id are replaced by `B`'s. -/
theorem webllm_session_exclusive (s : EngineState) (A B : String)
    (e0 e1 : Nat)
    (hen : s.enableWebLLM = true) (hlib : s.createPresent = true)
    (heng : s.engine = some e0) (hcur : s.currentModel = some A)
    (hAB : A ≠ B) :
    (loadWebLLMModel s B (Except.ok e1)).2.1
        = [.unloadStart e0, .unloadDone e0, .createStart B, .createDone e1]
    ∧ (∀ k, (liveSessions [e0]
          (((loadWebLLMModel s B (Except.ok e1)).2.1).take k)).length ≤ 1)
    ∧ (loadWebLLMModel s B (Except.ok e1)).1.engine = some e1
    ∧ (loadWebLLMModel s B (Except.ok e1)).1.currentModel = some B
    ∧ (loadWebLLMModel s B (Except.ok e1)).1.webLLMStatus = ModelStatus.ready
    ∧ (loadWebLLMModel s B (Except.ok e1)).2.2 = Except.ok () := by
  have htr : (loadWebLLMModel s B (Except.ok e1)).2.1
      = [.unloadStart e0, .unloadDone e0, .createStart B, .createDone e1] := by
    simp [loadWebLLMModel, hen, hlib, heng]
  refine ⟨htr, ?_, ?_, ?_, ?_, ?_⟩
  · intro k
    rw [htr]
    rcases k with _ | _ | _ | _ | n <;> simp [liveSessions]
  all_goals simp [loadWebLLMModel, hen, hlib, heng]

/-- C6 witness: switching from model `"A"` (session `0`) to model `"B"`
(new engine `1`). -/
theorem webllm_session_exclusive_witness :
    (loadWebLLMModel
        { engine := some 0, currentModel := some "A",
          webLLMStatus := .ready, webLLMError := none, isWebLLMLoaded := true,
          enableWebLLM := true, createPresent := true } "B" (Except.ok 1)).2.1
        = [.unloadStart 0, .unloadDone 0, .createStart "B", .createDone 1]
    ∧ (∀ k, (liveSessions [0]
          (((loadWebLLMModel
              { engine := some 0, currentModel := some "A",
                webLLMStatus := .ready, webLLMError := none,
                isWebLLMLoaded := true, enableWebLLM := true,
                createPresent := true } "B" (Except.ok 1)).2.1).take k)).length ≤ 1)
    ∧ (loadWebLLMModel
        { engine := some 0, currentModel := some "A",
          webLLMStatus := .ready, webLLMError := none, isWebLLMLoaded := true,
          enableWebLLM := true, createPresent := true } "B" (Except.ok 1)).1.engine
        = some 1
    ∧ (loadWebLLMModel
        { engine := some 0, currentModel := some "A",
          webLLMStatus := .ready, webLLMError := none, isWebLLMLoaded := true,
          enableWebLLM := true, createPresent := true } "B" (Except.ok 1)).1.currentModel
        = some "B"
    ∧ (loadWebLLMModel
        { engine := some 0, currentModel := some "A",
          webLLMStatus := .ready, webLLMError := none, isWebLLMLoaded := true,
          enableWebLLM := true, createPresent := true } "B" (Except.ok 1)).1.webLLMStatus
        = ModelStatus.ready
    ∧ (loadWebLLMModel
        { engine := some 0, currentModel := some "A",
          webLLMStatus := .ready, webLLMError := none, isWebLLMLoaded := true,
          enableWebLLM := true, createPresent := true } "B" (Except.ok 1)).2.2
        = Except.ok () :=
  webllm_session_exclusive
    { engine := some 0, currentModel := some "A", webLLMStatus := .ready,
      webLLMError := none, isWebLLMLoaded := true, enableWebLLM := true,
      createPresent := true } "A" "B" 0 1 rfl rfl rfl rfl (by decide)

/-- C10: `loadWebLLMModel(id)` never short-circuits on an existing session —
even when the active session's owning model id equals the requested `id`,
the session's disposal is awaited and a fresh engine is created by the
factory: the trace still begins with the unload pair followed by the factory
invocation, and the stored session is the factory's new result. -/
theorem webllm_reload_no_shortcircuit (s : EngineState) (modelId : String)
    (e0 e1 : Nat)
    (hen : s.enableWebLLM = true) (hlib : s.createPresent = true)
    (heng : s.engine = some e0) (hcur : s.currentModel = some modelId) :
    (loadWebLLMModel s modelId (Except.ok e1)).2.1
        = [.unloadStart e0, .unloadDone e0, .createStart modelId,
           .createDone e1]
    ∧ (loadWebLLMModel s modelId (Except.ok e1)).1.engine = some e1
    ∧ (loadWebLLMModel s modelId (Except.ok e1)).2.2 = Except.ok () := by
  refine ⟨?_, ?_, ?_⟩ <;> simp [loadWebLLMModel, hen, hlib, heng]

/-- C10 witness: reloading the already-loaded model id `"M"` (session `5`)
still unloads session `5` and installs the freshly created engine `6`. -/
theorem webllm_reload_no_shortcircuit_witness :
    (loadWebLLMModel
        { engine := some 5, currentModel := some "M", webLLMStatus := .ready,
          webLLMError := none, isWebLLMLoaded := true, enableWebLLM := true,
          createPresent := true } "M" (Except.ok 6)).2.1
        = [.unloadStart 5, .unloadDone 5, .createStart "M", .createDone 6]
    ∧ (loadWebLLMModel
        { engine := some 5, currentModel := some "M", webLLMStatus := .ready,
          webLLMError := none, isWebLLMLoaded := true, enableWebLLM := true,
          createPresent := true } "M" (Except.ok 6)).1.engine = some 6
    ∧ (loadWebLLMModel
        { engine := some 5, currentModel := some "M", webLLMStatus := .ready,
          webLLMError := none, isWebLLMLoaded := true, enableWebLLM := true,
          createPresent := true } "M" (Except.ok 6)).2.2 = Except.ok () :=
  webllm_reload_no_shortcircuit
    { engine := some 5, currentModel := some "M", webLLMStatus := .ready,
      webLLMError := none, isWebLLMLoaded := true, enableWebLLM := true,
      createPresent := true } "M" 5 6 rfl rfl rfl rfl

/-- C4 counterexample: `getAvailableWebLLMModels` does *not* fail soft when
the capability is absent — with WebLLM disabled it rejects with
"WebLLM is not enabled" (and with the library not yet loaded it rejects with
"WebLLM library not loaded yet") instead of resolving to the empty list. -/
theorem query_failsoft_counterexample :
    getAvailableWebLLMModels false none
        = Except.error "WebLLM is not enabled"
    ∧ getAvailableWebLLMModels true none
        = Except.error "WebLLM library not loaded yet"
    ∧ getAvailableWebLLMModels false none ≠ Except.ok [] := by
  refine ⟨rfl, rfl, by decide⟩

/-- C4 (amended): `hasModelInCache` fails soft in every absent-capability
case — WebLLM disabled, probe function absent, or probe throwing — resolving
`false` (and relays the probe's answer otherwise); `getAvailableWebLLMModels`
rejects when WebLLM is disabled or the library is not loaded, and fails soft
to the empty list only when reading the catalog's `model_list` itself
throws (resolving to the catalog otherwise). -/
theorem query_failsoft_amended (cc : Option (String → Except String Bool))
    (modelId e : String) (b : Bool) (l : List WebLLMModelRecord)
    (g : Option PrebuiltAppConfig) :
    hasModelInCache false cc modelId = Except.ok false
    ∧ hasModelInCache true none modelId = Except.ok false
    ∧ hasModelInCache true (some (fun _ => Except.error e)) modelId
        = Except.ok false
    ∧ hasModelInCache true (some (fun _ => Except.ok b)) modelId = Except.ok b
    ∧ getAvailableWebLLMModels false g = Except.error "WebLLM is not enabled"
    ∧ getAvailableWebLLMModels true none
        = Except.error "WebLLM library not loaded yet"
    ∧ getAvailableWebLLMModels true (some ⟨Except.error e⟩) = Except.ok []
    ∧ getAvailableWebLLMModels true (some ⟨Except.ok l⟩) = Except.ok l :=
  ⟨rfl, rfl, rfl, rfl, rfl, rfl, rfl, rfl⟩

/-- C7: `streamChatCompletion` invokes `onChunk` exactly once per chunk
whose extracted incremental content is non-empty, with that content, in
emission order — the call list is the order-preserving filter of the
per-chunk extracted contents (first conjunct, so no buffering, duplication
or reordering, and empty/missing-content chunks are skipped); for the
three-chunk sequence with contents "Hello", " there", "!" the calls are
exactly those three in order and concatenate to "Hello there!". -/
theorem stream_chunk_ordering :
    (∀ chunks : List StreamChunk,
        streamOnChunkCalls chunks
          = (chunks.map extractChunkContent).filter (fun c => !(c == "")))
    ∧ streamOnChunkCalls
        [⟨[⟨some ⟨some "Hello"⟩⟩]⟩, ⟨[⟨some ⟨some " there"⟩⟩]⟩,
         ⟨[⟨some ⟨some "!"⟩⟩]⟩]
        = ["Hello", " there", "!"]
    ∧ String.join ["Hello", " there", "!"] = "Hello there!" := by
  refine ⟨?_, by decide, rfl⟩
  intro chunks
  induction chunks with
  | nil => rfl
  | cons c rest ih =>
    by_cases h : extractChunkContent c = ""
    · simp [streamOnChunkCalls, h, ih, List.filter_cons]
    · simp [streamOnChunkCalls, h, ih, List.filter_cons]

/-- C9: in the request objects of `chatCompletion` (`{messages, ...options}`)
and `streamChatCompletion` (`{messages, stream: true, ...options}`) the
options spread comes last, so caller options take precedence: `stream: false`
in the options overrides the `stream: true` flag, a `messages` field in the
options replaces the `messages` argument in both requests, and in general any
key present in the options determines the request's value at that key. -/
theorem options_spread_precedence (messages ms2 : List ChatMessage)
    (options : String → Option ReqValue) (k : String) (v : ReqValue)
    (hstream : options "stream" = some (ReqValue.vBool false))
    (hmsgs : options "messages" = some (ReqValue.vMsgs ms2))
    (hk : options k = some v) :
    streamChatCompletionRequest messages options "stream"
        = some (ReqValue.vBool false)
    ∧ chatCompletionRequest messages options "messages"
        = some (ReqValue.vMsgs ms2)
    ∧ streamChatCompletionRequest messages options "messages"
        = some (ReqValue.vMsgs ms2)
    ∧ chatCompletionRequest messages options k = some v
    ∧ streamChatCompletionRequest messages options k = some v := by
  refine ⟨?_, ?_, ?_, ?_, ?_⟩ <;>
    simp [chatCompletionRequest, streamChatCompletionRequest, hstream, hmsgs, hk]

/-- C9 witness: an options object with `stream: false`, its own `messages`,
and a `temperature` key overrides all three fields of both requests. -/
theorem options_spread_precedence_witness :
    streamChatCompletionRequest [⟨"user", "hi"⟩]
        (fun key =>
          if key = "stream" then some (ReqValue.vBool false)
          else if key = "messages" then some (ReqValue.vMsgs [⟨"system", "x"⟩])
          else if key = "temperature" then some (ReqValue.vNum 1)
          else none) "stream"
        = some (ReqValue.vBool false)
    ∧ chatCompletionRequest [⟨"user", "hi"⟩]
        (fun key =>
          if key = "stream" then some (ReqValue.vBool false)
          else if key = "messages" then some (ReqValue.vMsgs [⟨"system", "x"⟩])
          else if key = "temperature" then some (ReqValue.vNum 1)
          else none) "messages"
        = some (ReqValue.vMsgs [⟨"system", "x"⟩])
    ∧ streamChatCompletionRequest [⟨"user", "hi"⟩]
        (fun key =>
          if key = "stream" then some (ReqValue.vBool false)
          else if key = "messages" then some (ReqValue.vMsgs [⟨"system", "x"⟩])
          else if key = "temperature" then some (ReqValue.vNum 1)
          else none) "messages"
        = some (ReqValue.vMsgs [⟨"system", "x"⟩])
    ∧ chatCompletionRequest [⟨"user", "hi"⟩]
        (fun key =>
          if key = "stream" then some (ReqValue.vBool false)
          else if key = "messages" then some (ReqValue.vMsgs [⟨"system", "x"⟩])
          else if key = "temperature" then some (ReqValue.vNum 1)
          else none) "temperature"
        = some (ReqValue.vNum 1)
    ∧ streamChatCompletionRequest [⟨"user", "hi"⟩]
        (fun key =>
          if key = "stream" then some (ReqValue.vBool false)
          else if key = "messages" then some (ReqValue.vMsgs [⟨"system", "x"⟩])
          else if key = "temperature" then some (ReqValue.vNum 1)
          else none) "temperature"
        = some (ReqValue.vNum 1) :=
  options_spread_precedence [⟨"user", "hi"⟩] [⟨"system", "x"⟩]
    (fun key =>
      if key = "stream" then some (ReqValue.vBool false)
      else if key = "messages" then some (ReqValue.vMsgs [⟨"system", "x"⟩])
      else if key = "temperature" then some (ReqValue.vNum 1)
      else none) "temperature" (ReqValue.vNum 1) rfl rfl rfl
